import Mathlib

/-!
# nano-looper: verification of the spec against the code

Shallow embedding of the two realtime subsystems of the repository:

* the WS envelope codec and room broker (`app/lib/ws-types.ts`,
  `server/ws-handler.ts`),
* the client transport queue (`app/hooks/useRoomSocket.ts`),
* the sample mixer worklet (`public/audio-worklet.js`).

JavaScript numbers are embedded as `ℚ` (every numeric operation the code
performs on them here is exact on small rationals), PCM floats as `ℚ` in the
mixing stage, and the final `Math.tanh` soft clip as a function `ℝ → ℝ`
instantiated with `Real.tanh` in theorem statements.  `JSON.parse` /
`JSON.stringify` are embedded at the level of JSON values: `serializeWSMessage`
produces the `Json` tree that `JSON.stringify` would print, and
`parseWSMessage` consumes `Option Json`, where `none` stands for an input
string that `JSON.parse` rejects (the `try`/`catch` in the source turns that
into `null`).
-/

namespace NanoLooper

/-- A JSON value (the image of `JSON.parse`). -/
inductive Json where
  | null : Json
  | bool (b : Bool) : Json
  | num (q : ℚ) : Json
  | str (s : String) : Json
  | arr (elems : List Json) : Json
  | obj (fields : List (String × Json)) : Json

/-- Property access `o.key` on a parsed JSON object: the objects the codec
builds have unique keys, and lookup returns the first binding. -/
def lookupField : List (String × Json) → String → Option Json
  | [], _ => none
  | (k, v) :: rest, key => if k = key then some v else lookupField rest key

/-- `typeof x === "object"` for a JSON value: true for objects, arrays and
`null` (a JavaScript quirk the validation in `parseWSMessage` relies on). -/
def Json.typeofObject : Json → Bool
  | Json.null => true
  | Json.arr _ => true
  | Json.obj _ => true
  | _ => false

/-- Client role on the wire.  The spec calls the `daw` role the "renderer". -/
inductive Role where
  | daw : Role
  | controller : Role
deriving DecidableEq

/-- The string the role serializes to. -/
def Role.toStr : Role → String
  | .daw => "daw"
  | .controller => "controller"

/-- The `WSMessage` union of `app/lib/ws-types.ts`.  The `requestSync`
constructor is the `{type: "request-sync"}` object that `server/ws-handler.ts`
constructs and publishes at runtime, although the TS union omits it. -/
inductive WSMessage where
  | join (roomId : String) (role : Role) : WSMessage
  | padHit (padIndex : ℚ) (velocity : Option ℚ) : WSMessage
  | syncState (tempo : ℚ) (padMappings : Json) : WSMessage
  | tempoChange (tempo : ℚ) : WSMessage
  | heartbeat : WSMessage
  | pong : WSMessage
  | error (message : String) : WSMessage
  | requestSync : WSMessage

/-- `serializeWSMessage` = `JSON.stringify(msg)`, as the JSON tree it prints;
field order is the object-literal order in the source.  `JSON.stringify`
omits a key whose value is `undefined`, hence the optional `velocity`. -/
def serializeWSMessage : WSMessage → Json
  | .join roomId role =>
      Json.obj [("type", Json.str "join"), ("roomId", Json.str roomId),
                ("role", Json.str role.toStr)]
  | .padHit padIndex velocity =>
      Json.obj ([("type", Json.str "pad-hit"), ("padIndex", Json.num padIndex)] ++
        (match velocity with
         | some v => [("velocity", Json.num v)]
         | none => []))
  | .syncState tempo padMappings =>
      Json.obj [("type", Json.str "sync-state"), ("tempo", Json.num tempo),
                ("padMappings", padMappings)]
  | .tempoChange tempo =>
      Json.obj [("type", Json.str "tempo-change"), ("tempo", Json.num tempo)]
  | .heartbeat => Json.obj [("type", Json.str "heartbeat")]
  | .pong => Json.obj [("type", Json.str "pong")]
  | .error message =>
      Json.obj [("type", Json.str "error"), ("message", Json.str message)]
  | .requestSync => Json.obj [("type", Json.str "request-sync")]

/-- `parseWSMessage` of `app/lib/ws-types.ts`.  The argument is the result of
`JSON.parse`: `none` models an input string `JSON.parse` throws on (the
`catch` returns `null`).  Non-objects, a missing/false-y/non-string `type`,
and every `type` without a `case` in the source `switch` yield `none`; note
the switch has cases only for `join`, `pad-hit`, `sync-state`, `tempo-change`,
`heartbeat` and `pong`.  The function is total: it never throws. -/
def parseWSMessage : Option Json → Option WSMessage
  | none => none
  | some (Json.obj fields) =>
    match lookupField fields "type" with
    | some (Json.str t) =>
      if t = "join" then
        match lookupField fields "roomId", lookupField fields "role" with
        | some (Json.str roomId), some (Json.str role) =>
          if role = "daw" then some (.join roomId .daw)
          else if role = "controller" then some (.join roomId .controller)
          else none
        | _, _ => none
      else if t = "pad-hit" then
        match lookupField fields "padIndex" with
        | some (Json.num padIndex) =>
          if 0 ≤ padIndex ∧ padIndex ≤ 15 then
            some (.padHit padIndex
              (match lookupField fields "velocity" with
               | some (Json.num v) => some v
               | _ => none))
          else none
        | _ => none
      else if t = "sync-state" then
        match lookupField fields "tempo", lookupField fields "padMappings" with
        | some (Json.num tempo), some padMappings =>
          if padMappings.typeofObject then some (.syncState tempo padMappings)
          else none
        | _, _ => none
      else if t = "tempo-change" then
        match lookupField fields "tempo" with
        | some (Json.num tempo) =>
          if 20 ≤ tempo ∧ tempo ≤ 300 then some (.tempoChange tempo) else none
        | _ => none
      else if t = "heartbeat" then some .heartbeat
      else if t = "pong" then some .pong
      else none
    | _ => none
  | some _ => none

/-! ## Room broker (`server/ws-handler.ts`) -/

/-- Per-connection state installed on `open` (the `WSData` interface). -/
structure WSData where
  roomId : Option String
  role : Option Role
  connectedAt : ℤ

/-- One observable effect of a broker event-handler turn.  `send` is
`ws.send` (to this socket only); `publish` is Bun's `ws.publish` (delivered
to every subscriber of the topic other than the publishing socket);
`subscribeRoom`/`unsubscribeRoom` are `ws.subscribe`/`ws.unsubscribe`. -/
inductive Effect where
  | send (msg : WSMessage) : Effect
  | publish (room : String) (msg : WSMessage) : Effect
  | subscribeRoom (room : String) : Effect
  | unsubscribeRoom (room : String) : Effect

/-- The `message` handler of `websocketHandler`: parse the frame, reply to a
parse failure, and dispatch on the message type.  The wire payloads the code
sends are `serializeWSMessage` of the messages recorded in the effects.
(The `roomConnections` map in the source mirrors the subscriptions only for
debug counting; the fan-out itself goes through the topic subscriptions.) -/
def websocketHandlerMessage (d : WSData) (raw : Option Json) :
    WSData × List Effect :=
  match parseWSMessage raw with
  | none => (d, [.send (.error "Invalid message format")])
  | some parsed =>
    match parsed with
    | .join roomId role =>
      let leave : List Effect :=
        match d.roomId with
        | some prev => [.unsubscribeRoom prev]
        | none => []
      let d2 : WSData := { d with roomId := some roomId, role := some role }
      let reqSync : List Effect :=
        if role = .controller then [.publish roomId .requestSync] else []
      (d2, leave ++ [.subscribeRoom roomId] ++ reqSync)
    | .padHit p v =>
      match d.roomId with
      | none => (d, [.send (.error "Not joined to a room")])
      | some room => (d, [.publish room (.padHit p v)])
    | .syncState t pm =>
      match d.roomId with
      | none => (d, [.send (.error "Not joined to a room")])
      | some room =>
        if d.role = some .daw then (d, [.publish room (.syncState t pm)])
        else (d, [.send (.error "Only DAW can sync state")])
    | .tempoChange t =>
      match d.roomId with
      | none => (d, [.send (.error "Not joined to a room")])
      | some room => (d, [.publish room (.tempoChange t)])
    | .heartbeat => (d, [.send .pong])
    | .pong => (d, [])
    | _ => (d, [])

/-- Who receives what from one effect: `ws.send` reaches the sender itself;
Bun's `ws.publish` reaches every subscriber of the room except the
publishing socket.  `subs` gives the subscriber set of each room. -/
def deliveries (sender : ℕ) (subs : String → List ℕ) :
    Effect → List (ℕ × WSMessage)
  | .send m => [(sender, m)]
  | .publish room m => ((subs room).filter (fun c => c ≠ sender)).map (fun c => (c, m))
  | _ => []

/-- All deliveries produced by a list of effects, in order. -/
def allDeliveries (sender : ℕ) (subs : String → List ℕ)
    (effs : List Effect) : List (ℕ × WSMessage) :=
  effs.flatMap (deliveries sender subs)

/-! ## Client transport (`app/hooks/useRoomSocket.ts`) -/

/-- Client transport state: whether `wsRef.current?.readyState` is `OPEN`,
and the outbound `messageQueueRef`. -/
structure Transport where
  readyOpen : Bool
  queue : List WSMessage

/-- `sendMessage`: send on the open socket, otherwise push onto the queue. -/
def sendMessage (t : Transport) (m : WSMessage) : Transport × List Json :=
  if t.readyOpen then (t, [serializeWSMessage m])
  else ({ t with queue := t.queue ++ [m] }, [])

/-- A sequence of `sendMessage` calls, collecting the wire frames sent. -/
def sendAll (t : Transport) : List WSMessage → Transport × List Json
  | [] => (t, [])
  | m :: rest =>
    let r1 := sendMessage t m
    let r2 := sendAll r1.1 rest
    (r2.1, r1.2 ++ r2.2)

/-- `flushMessageQueue`: shift from the front of the queue and send while the
socket is open.  The loop runs synchronously, so the socket stays in the
state it had when the flush started. -/
def flushMessageQueue (t : Transport) : Transport × List Json :=
  if t.readyOpen then ({ t with queue := [] }, t.queue.map serializeWSMessage)
  else (t, [])

/-- The `ws.onopen` handler: the socket is now open; send `join` first, start
the heartbeat timer (its first tick is 25 s away, so it sends nothing during
this turn), then flush the queue. -/
def onOpen (roomId : String) (role : Role) (t : Transport) :
    Transport × List Json :=
  let t1 : Transport := { t with readyOpen := true }
  let r := flushMessageQueue t1
  (r.1, serializeWSMessage (.join roomId role) :: r.2)

/-- Which registered handler the client's `ws.onmessage` dispatch invokes for
a received frame.  The switch in the source has cases for `pad-hit`,
`sync-state` and `tempo-change` (real handlers), and no-op cases for `pong`
and `error`; a frame the codec rejects is dropped (`if (!msg) return`). -/
inductive HandlerCall where
  | padHitCall (padIndex : ℚ) (velocity : Option ℚ) : HandlerCall
  | syncStateCall (tempo : ℚ) (padMappings : Json) : HandlerCall
  | tempoChangeCall (tempo : ℚ) : HandlerCall

/-- The client's `ws.onmessage` dispatch. -/
def clientDispatch (data : Option Json) : Option HandlerCall :=
  match parseWSMessage data with
  | none => none
  | some m =>
    match m with
    | .padHit p v => some (.padHitCall p v)
    | .syncState t pm => some (.syncStateCall t pm)
    | .tempoChange t => some (.tempoChangeCall t)
    | _ => none

/-! ## Sample mixer (`public/audio-worklet.js`) -/

/-- Voice lifecycle state. -/
inductive VState where
  | idle : VState
  | attack : VState
  | sustain : VState
  | release : VState
deriving DecidableEq

/-- One slot of the pre-allocated voice pool. -/
structure Voice where
  active : Bool
  soundId : Option String
  position : ℕ
  state : VState
  envLevel : ℚ
  releaseStart : ℕ
deriving DecidableEq

/-- A stored sample: the `{left, right, length}` triple exactly as it arrives
in the `load-sample` message.  Nothing checks that `length` matches the
buffer lengths. -/
structure Sample where
  left : List ℚ
  right : List ℚ
  length : ℕ
deriving DecidableEq

/-- The processor state: voice pool, sample map, envelope increments. -/
structure MixerState where
  voices : List Voice
  samples : List (String × Sample)
  attackIncrement : ℚ
  releaseIncrement : ℚ
  envelopeConfigured : Bool
deriving DecidableEq

def MAX_POLYPHONY : ℕ := 32
def ATTACK_MS : ℚ := 2
def RELEASE_MS : ℚ := 3

/-- A voice as the constructor builds it. -/
def initialVoice : Voice :=
  { active := false, soundId := none, position := 0, state := .idle,
    envLevel := 0, releaseStart := 0 }

instance : Inhabited Voice := ⟨initialVoice⟩

/-- The processor right after construction. -/
def initialMixer : MixerState :=
  { voices := List.replicate MAX_POLYPHONY initialVoice, samples := [],
    attackIncrement := 0, releaseIncrement := 0, envelopeConfigured := false }

/-- `this.samples.get(id)`: first (and by construction only) binding. -/
def findSample : List (String × Sample) → String → Option Sample
  | [], _ => none
  | (k, s) :: rest, id => if k = id then some s else findSample rest id

/-- `this.samples.set(id, s)`: replace the binding or append a new one. -/
def setSample : List (String × Sample) → String → Sample → List (String × Sample)
  | [], id, s => [(id, s)]
  | (k, s0) :: rest, id, s =>
    if k = id then (id, s) :: rest else (k, s0) :: setSample rest id s

/-- `this.samples.delete(id)`: drop the binding. -/
def removeSample : List (String × Sample) → String → List (String × Sample)
  | [], _ => []
  | (k, s0) :: rest, id =>
    if k = id then rest else (k, s0) :: removeSample rest id

/-- `this.samples.get(voice.soundId)` where `soundId` may still be `null`. -/
def lookupSample (samples : List (String × Sample)) : Option String → Option Sample
  | none => none
  | some id => findSample samples id

/-- The `load-sample` message case of `port.onmessage`: install the entry
verbatim.  The handler performs no consistency check between `length` and
the actual buffer lengths. -/
def loadSample (st : MixerState) (soundId : String) (left right : List ℚ)
    (length : ℕ) : MixerState :=
  { st with samples := setSample st.samples soundId ⟨left, right, length⟩ }

/-- The `unload-sample` message case: remove the entry.  Voices bound to the
sound are not touched here. -/
def unloadSample (st : MixerState) (soundId : String) : MixerState :=
  { st with samples := removeSample st.samples soundId }

/-- The `stop-all` message case: every active voice enters release. -/
def stopAll (st : MixerState) : MixerState :=
  { st with voices := st.voices.map fun v =>
      if v.active then { v with state := .release, releaseStart := v.position }
      else v }

/-- The fields `triggerVoice` writes into the selected slot. -/
def startVoice (soundId : String) : Voice :=
  { active := true, soundId := some soundId, position := 0, state := .attack,
    envLevel := 0, releaseStart := 0 }

/-- First loop of `triggerVoice`: index of the first voice with
`active === false`, scanning in pool order. -/
def findIdleIdx : List Voice → Option ℕ
  | [] => none
  | v :: rest =>
    if v.active = false then some 0 else (findIdleIdx rest).map (· + 1)

/-- Second loop of `triggerVoice`: running best of the
`v.position > oldestPosition` scan, where `bp` is the best position so far
(it starts at `-1`, which every cursor beats).  Strict `>` keeps the first
index on ties. -/
def stealFrom (bp : ℤ) : List Voice → Option ℕ
  | [] => none
  | v :: rest =>
    if bp < (v.position : ℤ) then
      match stealFrom (v.position : ℤ) rest with
      | some j => some (j + 1)
      | none => some 0
    else (stealFrom bp rest).map (· + 1)

/-- `triggerVoice(soundId)`: ignore the trigger when the sample is missing;
otherwise take the first idle voice, or steal the one with the largest
cursor, and overwrite its fields.  With a non-empty pool a slot is always
found (on an empty pool the source would fault; we leave the state
unchanged, and the theorems assume the pool non-empty). -/
def triggerVoice (st : MixerState) (soundId : String) : MixerState :=
  match findSample st.samples soundId with
  | none => st
  | some _ =>
    let idx :=
      match findIdleIdx st.voices with
      | some i => some i
      | none => stealFrom (-1) st.voices
    match idx with
    | some j => { st with voices := st.voices.set j (startVoice soundId) }
    | none => st

/-- `configureEnvelope()`: increments derived from the device sample rate on
the first `process` call. -/
def configureEnvelope (st : MixerState) (sampleRate : ℚ) : MixerState :=
  let attackSamples := ATTACK_MS / 1000 * sampleRate
  let releaseSamples := RELEASE_MS / 1000 * sampleRate
  { st with attackIncrement := 1 / attackSamples,
            releaseIncrement := 1 / releaseSamples,
            envelopeConfigured := true }

/-- One frame of envelope bookkeeping for a voice inside the mix loop: the
end-of-sample check, then the attack/release update.  The returned flag is
`true` when the release completed, which `break`s out of the voice's loop
before any accumulation or cursor advance. -/
def envStep (attInc relInc : ℚ) (length : ℕ) (v : Voice) : Voice × Bool :=
  let v1 :=
    if length ≤ v.position ∧ v.state ≠ VState.release then
      { v with state := .release, releaseStart := v.position }
    else v
  match v1.state with
  | .attack =>
    let env := v1.envLevel + attInc
    if 1 ≤ env then ({ v1 with envLevel := 1, state := .sustain }, false)
    else ({ v1 with envLevel := env }, false)
  | .release =>
    let env := v1.envLevel - relInc
    if env ≤ 0 then
      ({ v1 with envLevel := 0, active := false, state := .idle }, true)
    else ({ v1 with envLevel := env }, false)
  | _ => (v1, false)

/-- The inner `for (i = 0; i < blockSize; i++)` loop of `process` for one
voice.  The result carries the voice as the loop leaves it, the per-frame
`(left, right)` contributions this voice adds into the output buffers
(zeros after an early `break`), and the number of frames at which the code
read `left[pos]`/`right[pos]` out of bounds: the guard compares `pos` only
against the stored `length` field, never against the buffers, so `get?`
can return `none` there (the JS reads `undefined`); we count those reads
and contribute `0`. -/
def mixFrames (attInc relInc : ℚ) (left right : List ℚ) (length : ℕ) :
    ℕ → Voice → Voice × List (ℚ × ℚ) × ℕ
  | 0, v => (v, [], 0)
  | n + 1, v =>
    match envStep attInc relInc length v with
    | (v2, true) => (v2, List.replicate (n + 1) ((0 : ℚ), (0 : ℚ)), 0)
    | (v2, false) =>
      let pos := v2.position
      let step : (ℚ × ℚ) × ℕ :=
        if pos < length then
          match left.get? pos, right.get? pos with
          | some l, some r => ((l * v2.envLevel, r * v2.envLevel), 0)
          | _, _ => (((0 : ℚ), (0 : ℚ)), 1)
        else (((0 : ℚ), (0 : ℚ)), 0)
      let v3 : Voice := { v2 with position := pos + 1 }
      let r := mixFrames attInc relInc left right length n v3
      (r.1, step.1 :: r.2.1, step.2 + r.2.2)

/-- One voice's turn of the outer voice loop in `process`: skip inactive
voices; deactivate (without touching any other field) a voice whose sample
is missing; otherwise mix the block. -/
def processVoice (samples : List (String × Sample)) (attInc relInc : ℚ)
    (blockSize : ℕ) (v : Voice) : Voice × List (ℚ × ℚ) × ℕ :=
  if v.active = false then (v, List.replicate blockSize ((0 : ℚ), (0 : ℚ)), 0)
  else
    match lookupSample samples v.soundId with
    | none => ({ v with active := false }, List.replicate blockSize ((0 : ℚ), (0 : ℚ)), 0)
    | some smp => mixFrames attInc relInc smp.left smp.right smp.length blockSize v

/-- Pointwise sum of two per-frame contribution buffers. -/
def addBuffers (a b : List (ℚ × ℚ)) : List (ℚ × ℚ) :=
  List.zipWith (fun p q => (p.1 + q.1, p.2 + q.2)) a b

/-- The outer voice loop: each voice accumulates into the shared output
buffers.  The loop only ever adds to the buffers and never reads them back,
so the buffers after the loop are the pointwise sum of the per-voice
contributions over the zeroed block. -/
def processAllVoices (samples : List (String × Sample)) (attInc relInc : ℚ)
    (blockSize : ℕ) : List Voice → List Voice × List (ℚ × ℚ) × ℕ
  | [] => ([], List.replicate blockSize ((0 : ℚ), (0 : ℚ)), 0)
  | v :: rest =>
    let r1 := processVoice samples attInc relInc blockSize v
    let r2 := processAllVoices samples attInc relInc blockSize rest
    (r1.1 :: r2.1, addBuffers r1.2.1 r2.2.1, r1.2.2 + r2.2.2)

/-- `process` up to (and excluding) the soft-clip stage: envelope
configuration, then the voice loop.  Returns the new state, the premix
buffer of `(left, right)` frame sums, and the out-of-bounds read count. -/
def processPre (st : MixerState) (sampleRate : ℚ) (blockSize : ℕ) :
    MixerState × List (ℚ × ℚ) × ℕ :=
  let st1 := if st.envelopeConfigured then st else configureEnvelope st sampleRate
  let r := processAllVoices st1.samples st1.attackIncrement st1.releaseIncrement
    blockSize st1.voices
  ({ st1 with voices := r.1 }, r.2.1, r.2.2)

/-- The channel write-out and soft-clip stage of `process`, parametric in the
clip function (`Math.tanh` in the source; theorems instantiate `Real.tanh`).
With two host channels each buffer is clipped once.  With one host channel
the source sets `outputRight = output[1] || output[0]`, so `outputRight`
ALIASES `outputLeft`: during mixing both the left and the right contribution
of every voice land in the single array (hence the `p.1 + p.2`), and the
clip loop's two in-place writes hit the same cell, applying the clip twice. -/
def writeOutput (clip : ℝ → ℝ) (channels : ℕ) (buf : List (ℚ × ℚ)) :
    List (List ℝ) :=
  if channels = 0 then []
  else if channels = 1 then
    [buf.map fun p => clip (clip (((p.1 + p.2 : ℚ) : ℝ)))]
  else
    [buf.map fun p => clip ((p.1 : ℝ)), buf.map fun p => clip ((p.2 : ℝ))]

/-- The full `process` callback: configure the envelope on first call, return
early when the host hands no output channels, otherwise mix and write out.
The host's `sampleRate` global is passed explicitly. -/
def process (clip : ℝ → ℝ) (st : MixerState) (sampleRate : ℚ)
    (channels blockSize : ℕ) : MixerState × List (List ℝ) × ℕ :=
  let st1 := if st.envelopeConfigured then st else configureEnvelope st sampleRate
  if channels = 0 then (st1, [], 0)
  else
    let r := processAllVoices st1.samples st1.attackIncrement st1.releaseIncrement
      blockSize st1.voices
    ({ st1 with voices := r.1 }, writeOutput clip channels r.2.1, r.2.2)

/-! ## Concrete states used by the witnesses and counterexamples -/

/-- Validity of a wire message per the §4.5 table: non-empty room id, a role
literal, pad index in `[0, 15]`, tempo in `[20, 300]`, pad mappings an
object. -/
def validWS : WSMessage → Prop
  | .join roomId _ => roomId ≠ ""
  | .padHit p _ => 0 ≤ p ∧ p ≤ 15
  | .syncState t pm => (20 ≤ t ∧ t ≤ 300) ∧ ∃ l, pm = Json.obj l
  | .tempoChange t => 20 ≤ t ∧ t ≤ 300
  | _ => True

/-- A fully occupied demo pool slot: a sustained voice at cursor `p`. -/
def demoVoiceAt (p : ℕ) : Voice :=
  { active := true, soundId := some "a", position := p, state := .sustain,
    envLevel := 1, releaseStart := 0 }

/-- Demo mixer state with the pool `[cursor 3, cursor 7, cursor 7]` and the
sound "kick" loaded. -/
def demoMixer : MixerState :=
  { voices := [demoVoiceAt 3, demoVoiceAt 7, demoVoiceAt 7],
    samples := [("kick", ⟨[1], [1], 1⟩)],
    attackIncrement := 0, releaseIncrement := 0, envelopeConfigured := true }

/-- A voice mid-playback, bound to "s", sustaining at full envelope. -/
def demoBoundVoice : Voice :=
  { active := true, soundId := some "s", position := 10, state := .sustain,
    envLevel := 1, releaseStart := 0 }

/-- A stereo sample whose left channel is 1 and right channel is -1, loaded
as "s" and triggered once. -/
def demoStereoState : MixerState :=
  triggerVoice (loadSample initialMixer "s" [1] [-1] 1) "s"

/-- A sample whose stored `length` field (1) exceeds its actual buffer
lengths (0), installed unchecked by the load-sample handler, then triggered. -/
def lengthLieState : MixerState :=
  triggerVoice (loadSample initialMixer "s" (([] : List ℚ)) (([] : List ℚ)) 1) "s"

/-! ## Theorems -/

/-- C3 (amended): the codec round-trips every valid message of the types the
parser recognizes — join, pad-hit, sync-state, tempo-change, heartbeat,
pong.  The `error` and `request-sync` frames of the §4.5 table are excluded:
`parseWSMessage` has no case for either, so they do not round-trip (see the
counterexample theorem). -/
theorem codec_round_trip (m : WSMessage) (hvalid : validWS m)
    (herr : ∀ s, m ≠ WSMessage.error s) (hreq : m ≠ WSMessage.requestSync) :
    parseWSMessage (some (serializeWSMessage m)) = some m := by
  cases m with
  | join roomId role =>
    cases role <;>
      simp [serializeWSMessage, parseWSMessage, lookupField, Role.toStr]
  | padHit p v =>
    obtain ⟨h0, h15⟩ := hvalid
    cases v <;>
      simp [serializeWSMessage, parseWSMessage, lookupField, h0, h15]
  | syncState t pm =>
    obtain ⟨-, l, rfl⟩ := hvalid
    simp [serializeWSMessage, parseWSMessage, lookupField, Json.typeofObject]
  | tempoChange t =>
    obtain ⟨h20, h300⟩ := hvalid
    simp [serializeWSMessage, parseWSMessage, lookupField, h20, h300]
  | heartbeat => rfl
  | pong => rfl
  | error s => exact absurd rfl (herr s)
  | requestSync => exact absurd rfl hreq

/-- C3 witness: the round-trip theorem applied to the concrete message
pad-hit with pad index 3 and velocity 100. -/
theorem codec_round_trip_witness :
    parseWSMessage (some (serializeWSMessage (WSMessage.padHit 3 (some 100)))) =
      some (WSMessage.padHit 3 (some 100)) :=
  codec_round_trip (WSMessage.padHit 3 (some 100)) (by norm_num [validWS])
    (fun s h => by cases h) (fun h => by cases h)

/-- C3 counterexample: `error` and `request-sync` are in the §4.5 message set,
both are serialized by the code (`serializeWSMessage` is called on them by
the broker), yet `parseWSMessage` has no case for either type, so
`parse(serialize(m))` is `none`, not `m`. -/
theorem codec_round_trip_counterexample :
    parseWSMessage (some (serializeWSMessage (WSMessage.error "boom"))) = none ∧
    parseWSMessage (some (serializeWSMessage WSMessage.requestSync)) = none ∧
    (none : Option WSMessage) ≠ some (WSMessage.error "boom") := by
  refine ⟨rfl, rfl, ?_⟩
  intro h
  cases h

/-- C4 (amended): what `parseWSMessage` actually rejects and accepts.  An
input `JSON.parse` throws on yields `nil`; a pad-hit with pad index outside
`[0, 15]` yields `nil`; a tempo-change with tempo outside `[20, 300]` yields
`nil`; any `type` string without a switch case yields `nil`.  But the
sync-state case checks only `typeof tempo === "number"` — tempo is NOT
range-checked — and the join case checks only `typeof roomId === "string"`,
so the empty room id is accepted.  The function is total (never throws) by
construction. -/
theorem parse_validation (p t : ℚ) (ty : String) (fields : List (String × Json)) :
    parseWSMessage none = none ∧
    ((p < 0 ∨ 15 < p) →
      parseWSMessage (some (Json.obj
        [("type", Json.str "pad-hit"), ("padIndex", Json.num p)])) = none) ∧
    ((t < 20 ∨ 300 < t) →
      parseWSMessage (some (Json.obj
        [("type", Json.str "tempo-change"), ("tempo", Json.num t)])) = none) ∧
    (ty ∉ ["join", "pad-hit", "sync-state", "tempo-change", "heartbeat", "pong"] →
      parseWSMessage (some (Json.obj (("type", Json.str ty) :: fields))) = none) ∧
    parseWSMessage (some (Json.obj
      [("type", Json.str "sync-state"), ("tempo", Json.num t),
       ("padMappings", Json.obj [])])) = some (WSMessage.syncState t (Json.obj [])) ∧
    parseWSMessage (some (Json.obj
      [("type", Json.str "join"), ("roomId", Json.str ""),
       ("role", Json.str "daw")])) = some (WSMessage.join "" Role.daw) := by
  refine ⟨rfl, ?_, ?_, ?_, ?_, rfl⟩
  · rintro (h | h) <;>
      simp [parseWSMessage, lookupField] <;> intro h' <;> linarith
  · rintro (h | h) <;>
      simp [parseWSMessage, lookupField] <;> intro h' <;> linarith
  · intro hty
    simp only [List.mem_cons, List.mem_singleton, not_or] at hty
    obtain ⟨h1, h2, h3, h4, h5, h6, -⟩ := hty
    simp [parseWSMessage, lookupField, h1, h2, h3, h4, h5, h6]
  · simp [parseWSMessage, lookupField, Json.typeofObject]

/-- C4 witness: the validation theorem applied at pad index 16, tempo 301 and
the unknown type "mystery". -/
theorem parse_validation_witness :
    parseWSMessage (some (Json.obj
      [("type", Json.str "pad-hit"), ("padIndex", Json.num 16)])) = none ∧
    parseWSMessage (some (Json.obj
      [("type", Json.str "tempo-change"), ("tempo", Json.num 301)])) = none ∧
    parseWSMessage (some (Json.obj [("type", Json.str "mystery")])) = none := by
  obtain ⟨-, h1, h2, h3, -, -⟩ := parse_validation 16 301 "mystery" []
  exact ⟨h1 (Or.inr (by norm_num)), h2 (Or.inr (by norm_num)), h3 (by decide)⟩

/-- C4 counterexample: the claim says a sync-state frame with tempo outside
`[20, 300]` and a join frame with empty room id yield `nil`; the code parses
both successfully (the sync-state case never range-checks tempo, the join
case never checks non-emptiness). -/
theorem parse_validation_counterexample :
    parseWSMessage (some (Json.obj
      [("type", Json.str "sync-state"), ("tempo", Json.num 301),
       ("padMappings", Json.obj [])])) =
        some (WSMessage.syncState 301 (Json.obj [])) ∧
    parseWSMessage (some (Json.obj
      [("type", Json.str "join"), ("roomId", Json.str ""),
       ("role", Json.str "controller")])) =
        some (WSMessage.join "" Role.controller) ∧
    parseWSMessage (some (Json.obj
      [("type", Json.str "sync-state"), ("tempo", Json.num 301),
       ("padMappings", Json.obj [])])) ≠ none := by
  refine ⟨rfl, rfl, ?_⟩
  intro h
  cases h

/-- C5 (amended): role enforcement for sync-state, with the error texts the
code sends and with `daw` as the code's name for the renderer role.  If the
connection has no room the broker replies `error:"Not joined to a room"` to
the sender only; if the role is not `daw` it replies
`error:"Only DAW can sync state"` to the sender only; otherwise it publishes
the frame to the room.  In the two rejection cases every delivery goes to
the sender, so no other subscriber observes the frame. -/
theorem sync_state_role_enforcement (d : WSData) (raw : Option Json)
    (t : ℚ) (pm : Json)
    (hparse : parseWSMessage raw = some (WSMessage.syncState t pm)) :
    (d.roomId = none →
      websocketHandlerMessage d raw =
        (d, [Effect.send (WSMessage.error "Not joined to a room")])) ∧
    (∀ r, d.roomId = some r → d.role ≠ some Role.daw →
      websocketHandlerMessage d raw =
        (d, [Effect.send (WSMessage.error "Only DAW can sync state")])) ∧
    (∀ r, d.roomId = some r → d.role = some Role.daw →
      websocketHandlerMessage d raw =
        (d, [Effect.publish r (WSMessage.syncState t pm)])) ∧
    ((d.roomId = none ∨ d.role ≠ some Role.daw) →
      ∀ sender subs pr, pr ∈ allDeliveries sender subs (websocketHandlerMessage d raw).2 →
        pr.1 = sender) := by
  refine ⟨?_, ?_, ?_, ?_⟩
  · intro hroom
    simp [websocketHandlerMessage, hparse, hroom]
  · intro r hroom hrole
    simp [websocketHandlerMessage, hparse, hroom, hrole]
  · intro r hroom hrole
    simp [websocketHandlerMessage, hparse, hroom, hrole]
  · intro hrej sender subs pr hpr
    rcases hd : d.roomId with - | r
    · simp [websocketHandlerMessage, hparse, hd, allDeliveries, deliveries] at hpr
      simp [hpr]
    · have hrole : d.role ≠ some Role.daw := by
        rcases hrej with h | h
        · rw [hd] at h; cases h
        · exact h
      simp [websocketHandlerMessage, hparse, hd, hrole, allDeliveries, deliveries] at hpr
      simp [hpr]

/-- C5 witness: the role-enforcement theorem applied to a concrete unjoined
connection, a concrete controller connection and a concrete daw connection
in room `r1`, with the sync-state frame at tempo 140. -/
theorem sync_state_role_enforcement_witness :
    websocketHandlerMessage ⟨none, none, 0⟩
        (some (serializeWSMessage (WSMessage.syncState 140 (Json.obj [])))) =
      (⟨none, none, 0⟩, [Effect.send (WSMessage.error "Not joined to a room")]) ∧
    websocketHandlerMessage ⟨some "r1", some Role.controller, 0⟩
        (some (serializeWSMessage (WSMessage.syncState 140 (Json.obj [])))) =
      (⟨some "r1", some Role.controller, 0⟩,
       [Effect.send (WSMessage.error "Only DAW can sync state")]) ∧
    websocketHandlerMessage ⟨some "r1", some Role.daw, 0⟩
        (some (serializeWSMessage (WSMessage.syncState 140 (Json.obj [])))) =
      (⟨some "r1", some Role.daw, 0⟩,
       [Effect.publish "r1" (WSMessage.syncState 140 (Json.obj []))]) := by
  have hp : parseWSMessage
      (some (serializeWSMessage (WSMessage.syncState 140 (Json.obj [])))) =
      some (WSMessage.syncState 140 (Json.obj [])) := rfl
  refine ⟨?_, ?_, ?_⟩
  · exact (sync_state_role_enforcement ⟨none, none, 0⟩ _ 140 (Json.obj []) hp).1 rfl
  · exact (sync_state_role_enforcement ⟨some "r1", some Role.controller, 0⟩ _ 140
      (Json.obj []) hp).2.1 "r1" rfl (by intro h; cases h)
  · exact (sync_state_role_enforcement ⟨some "r1", some Role.daw, 0⟩ _ 140
      (Json.obj []) hp).2.2.1 "r1" rfl rfl

/-- C5 counterexample: the claim quotes the reply texts `"Not joined"` and
`"Only renderer can sync state"`; at these concrete inputs the broker's
replies are `"Not joined to a room"` and `"Only DAW can sync state"`, which
are different strings (the spec abbreviates the first and renames the `daw`
role "renderer" in the second). -/
theorem sync_state_error_text_counterexample :
    (websocketHandlerMessage ⟨none, none, 0⟩
        (some (serializeWSMessage (WSMessage.syncState 140 (Json.obj []))))).2 =
      [Effect.send (WSMessage.error "Not joined to a room")] ∧
    "Not joined to a room" ≠ "Not joined" ∧
    (websocketHandlerMessage ⟨some "r1", some Role.controller, 0⟩
        (some (serializeWSMessage (WSMessage.syncState 140 (Json.obj []))))).2 =
      [Effect.send (WSMessage.error "Only DAW can sync state")] ∧
    "Only DAW can sync state" ≠ "Only renderer can sync state" :=
  ⟨rfl, by decide, rfl, by decide⟩

/-- C2: the broker does publish `request-sync` to the room when a controller
joins (second conjunct: the join turn subscribes and then publishes), but
the renderer can never act on it: `parseWSMessage` has no `request-sync`
case, so the renderer's client parses the frame to `nil` and its `onmessage`
returns without dispatching any handler (and the hook has no request-sync
handler to begin with).  The published frame is therefore dropped and no
sync-state is emitted in response to a join. -/
theorem request_sync_frame_dropped_by_client :
    websocketHandlerMessage ⟨none, none, 0⟩
        (some (serializeWSMessage (WSMessage.join "r1" Role.controller))) =
      (⟨some "r1", some Role.controller, 0⟩,
       [Effect.subscribeRoom "r1", Effect.publish "r1" WSMessage.requestSync]) ∧
    parseWSMessage (some (serializeWSMessage WSMessage.requestSync)) = none ∧
    clientDispatch (some (serializeWSMessage WSMessage.requestSync)) = none :=
  ⟨rfl, rfl, rfl⟩

/-- C8: pad-hit fan-out.  With the room set, the broker publishes the frame
via Bun's `ws.publish`, which delivers to every subscriber of the topic
EXCEPT the publishing socket — so with room `r1` subscribed by connections 1
and 2, a pad-hit from connection 1 reaches only connection 2 and the sender
never receives its own frame, contrary to the code's own comment
("including sender for confirmation"). -/
theorem pad_hit_fanout_excludes_sender :
    (websocketHandlerMessage ⟨some "r1", some Role.controller, 0⟩
        (some (serializeWSMessage (WSMessage.padHit 3 none)))).2 =
      [Effect.publish "r1" (WSMessage.padHit 3 none)] ∧
    allDeliveries 1 (fun r => if r = "r1" then [1, 2] else [])
        [Effect.publish "r1" (WSMessage.padHit 3 none)] =
      [(2, WSMessage.padHit 3 none)] ∧
    (1, WSMessage.padHit 3 none) ∉
      allDeliveries 1 (fun r => if r = "r1" then [1, 2] else [])
        [Effect.publish "r1" (WSMessage.padHit 3 none)] := by
  refine ⟨rfl, rfl, ?_⟩
  intro hmem
  simp [allDeliveries, deliveries] at hmem

/-- C9: queue-preserving reconnect.  Every `sendMessage` issued while the
socket is not open appends to the queue and sends nothing; on the next
successful connect the `onopen` handler sends the `join` frame first and
then flushes the queued frames in FIFO order. -/
theorem reconnect_queue_flush (t : Transport) (msgs : List WSMessage)
    (roomId : String) (role : Role)
    (hdown : t.readyOpen = false) (hq : t.queue = []) :
    (sendAll t msgs).2 = [] ∧
    (sendAll t msgs).1.queue = msgs ∧
    (onOpen roomId role (sendAll t msgs).1).2 =
      serializeWSMessage (WSMessage.join roomId role) :: msgs.map serializeWSMessage := by
  have key : ∀ (msgs : List WSMessage) (t : Transport), t.readyOpen = false →
      (sendAll t msgs).2 = [] ∧ (sendAll t msgs).1.readyOpen = false ∧
      (sendAll t msgs).1.queue = t.queue ++ msgs := by
    intro msgs
    induction msgs with
    | nil => intro t ht; simp [sendAll, ht]
    | cons m rest ih =>
      intro t ht
      obtain ⟨h1, h2, h3⟩ := ih { t with queue := t.queue ++ [m] } ht
      rw [ht] at h1 h2 h3
      simp [sendAll, sendMessage, ht, h1, h2, h3]
  obtain ⟨h1, h2, h3⟩ := key msgs t hdown
  rw [hq] at h3
  simp only [List.nil_append] at h3
  refine ⟨h1, h3, ?_⟩
  simp [onOpen, flushMessageQueue, h3]

/-- C9 witness: the reconnect theorem applied to a closed transport with an
empty queue and the concrete sequence pad-hit 1, tempo-change 120. -/
theorem reconnect_queue_flush_witness :
    (sendAll ⟨false, []⟩ [WSMessage.padHit 1 none, WSMessage.tempoChange 120]).2 = [] ∧
    (sendAll ⟨false, []⟩ [WSMessage.padHit 1 none, WSMessage.tempoChange 120]).1.queue =
      [WSMessage.padHit 1 none, WSMessage.tempoChange 120] ∧
    (onOpen "r1" Role.controller
        (sendAll ⟨false, []⟩ [WSMessage.padHit 1 none, WSMessage.tempoChange 120]).1).2 =
      serializeWSMessage (WSMessage.join "r1" Role.controller) ::
        [WSMessage.padHit 1 none, WSMessage.tempoChange 120].map serializeWSMessage :=
  reconnect_queue_flush ⟨false, []⟩ [WSMessage.padHit 1 none, WSMessage.tempoChange 120]
    "r1" Role.controller rfl rfl

/-- Characterization of the first idle-voice scan: a hit is in range, names
an inactive voice, and every earlier voice is active. -/
theorem findIdleIdx_some (vs : List Voice) (j : ℕ) (h : findIdleIdx vs = some j) :
    j < vs.length ∧ (vs.getD j initialVoice).active = false ∧
      ∀ i, i < j → (vs.getD i initialVoice).active = true := by
  induction vs generalizing j with
  | nil => cases h
  | cons v rest ih =>
    by_cases hv : v.active = false
    · simp only [findIdleIdx, if_pos hv] at h
      cases h
      exact ⟨by simp, by simpa using hv, fun i hi => absurd hi (by omega)⟩
    · simp only [findIdleIdx, if_neg hv] at h
      cases hrec : findIdleIdx rest with
      | none => rw [hrec] at h; cases h
      | some j' =>
        rw [hrec] at h
        simp only [Option.map_some'] at h
        cases h
        obtain ⟨hlt, hact, hbef⟩ := ih j' hrec
        refine ⟨by simpa using hlt, by simpa using hact, ?_⟩
        intro i hi
        cases i with
        | zero => simpa using Bool.not_eq_false _ |>.mp hv
        | succ i => simpa using hbef i (by omega)

/-- Characterization of a missed idle scan: every voice is active. -/
theorem findIdleIdx_none (vs : List Voice) (h : findIdleIdx vs = none) :
    ∀ i, i < vs.length → (vs.getD i initialVoice).active = true := by
  induction vs with
  | nil => intro i hi; simp at hi
  | cons v rest ih =>
    by_cases hv : v.active = false
    · simp only [findIdleIdx, if_pos hv] at h; cases h
    · simp only [findIdleIdx, if_neg hv] at h
      have hrest : findIdleIdx rest = none := by
        cases hrec : findIdleIdx rest with
        | none => rfl
        | some j' => rw [hrec] at h; cases h
      intro i hi
      cases i with
      | zero => simpa using Bool.not_eq_false _ |>.mp hv
      | succ i => simpa using ih hrest i (by simpa using hi)

/-- Characterization of the stealing scan with running best `bp`: a miss
means every cursor is at most `bp`; a hit names the first index whose cursor
strictly exceeds `bp` and is maximal (strict `>` in the source keeps the
earliest index on ties, so every earlier cursor is strictly smaller). -/
theorem stealFrom_spec (vs : List Voice) : ∀ bp : ℤ,
    (stealFrom bp vs = none →
      ∀ i, i < vs.length → ((vs.getD i initialVoice).position : ℤ) ≤ bp) ∧
    (∀ j, stealFrom bp vs = some j → j < vs.length ∧
      bp < ((vs.getD j initialVoice).position : ℤ) ∧
      (∀ i, i < vs.length →
        (vs.getD i initialVoice).position ≤ (vs.getD j initialVoice).position) ∧
      (∀ i, i < j →
        (vs.getD i initialVoice).position < (vs.getD j initialVoice).position)) := by
  induction vs with
  | nil =>
    intro bp
    refine ⟨fun _ i hi => absurd hi (by simp), fun j hj => ?_⟩
    cases hj
  | cons v rest ih =>
    intro bp
    constructor
    · intro hnone i hi
      by_cases hv : bp < (v.position : ℤ)
      · exfalso
        simp only [stealFrom, if_pos hv] at hnone
        cases hrec : stealFrom (v.position : ℤ) rest with
        | none => rw [hrec] at hnone; cases hnone
        | some j' => rw [hrec] at hnone; cases hnone
      · simp only [stealFrom, if_neg hv] at hnone
        have hrest : stealFrom bp rest = none := by
          cases hrec : stealFrom bp rest with
          | none => rfl
          | some j' => rw [hrec] at hnone; cases hnone
        push_neg at hv
        cases i with
        | zero => simpa using hv
        | succ i => simpa using (ih bp).1 hrest i (by simpa using hi)
    · intro j hj
      by_cases hv : bp < (v.position : ℤ)
      · simp only [stealFrom, if_pos hv] at hj
        cases hrec : stealFrom (v.position : ℤ) rest with
        | none =>
          rw [hrec] at hj
          cases hj
          have hall := (ih (v.position : ℤ)).1 hrec
          refine ⟨by simp, by simpa using hv, ?_, fun i hi => absurd hi (by omega)⟩
          intro i hi
          cases i with
          | zero => simp
          | succ i =>
            have hle := hall i (by simpa using hi)
            simp only [List.getD_cons_succ, List.getD_cons_zero]
            exact_mod_cast hle
        | some j' =>
          rw [hrec] at hj
          cases hj
          obtain ⟨hl, hbp, hall, hbef⟩ := (ih (v.position : ℤ)).2 j' hrec
          refine ⟨by simpa using hl, by simpa using hv.trans hbp, ?_, ?_⟩
          · intro i hi
            cases i with
            | zero =>
              simp only [List.getD_cons_succ, List.getD_cons_zero]
              exact le_of_lt (by exact_mod_cast hbp)
            | succ i =>
              simp only [List.getD_cons_succ]
              exact hall i (by simpa using hi)
          · intro i hi
            cases i with
            | zero =>
              simp only [List.getD_cons_succ, List.getD_cons_zero]
              exact_mod_cast hbp
            | succ i =>
              simp only [List.getD_cons_succ]
              exact hbef i (by omega)
      · simp only [stealFrom, if_neg hv] at hj
        cases hrec : stealFrom bp rest with
        | none => rw [hrec] at hj; cases hj
        | some j' =>
          rw [hrec] at hj
          simp only [Option.map_some'] at hj
          cases hj
          push_neg at hv
          obtain ⟨hl, hbp, hall, hbef⟩ := (ih bp).2 j' hrec
          have hv_lt : (v.position : ℤ) < ((rest.getD j' initialVoice).position : ℤ) :=
            lt_of_le_of_lt hv hbp
          refine ⟨by simpa using hl, by simpa using hbp, ?_, ?_⟩
          · intro i hi
            cases i with
            | zero =>
              simp only [List.getD_cons_succ, List.getD_cons_zero]
              exact le_of_lt (by exact_mod_cast hv_lt)
            | succ i =>
              simp only [List.getD_cons_succ]
              exact hall i (by simpa using hi)
          · intro i hi
            cases i with
            | zero =>
              simp only [List.getD_cons_succ, List.getD_cons_zero]
              exact_mod_cast hv_lt
            | succ i =>
              simp only [List.getD_cons_succ]
              exact hbef i (by omega)

/-- C1: voice selection on trigger of a loaded sound.  The trigger always
succeeds: some slot `j` is overwritten with
`startVoice id = {active := true, soundId := id, position := 0,
state := attack, envLevel := 0, releaseStart := 0}` and the sample map is
untouched.  If some voice is idle, `j` is the first idle index (every
earlier voice is active); if all voices are active, `j` carries the largest
playback cursor and every earlier voice's cursor is strictly smaller (ties
broken by lowest index). -/
theorem trigger_voice_selection (st : MixerState) (id : String) (smp : Sample)
    (hpool : st.voices ≠ []) (hload : findSample st.samples id = some smp) :
    ∃ j, j < st.voices.length ∧
      triggerVoice st id = { st with voices := st.voices.set j (startVoice id) } ∧
      (((st.voices.getD j initialVoice).active = false ∧
          ∀ i, i < j → (st.voices.getD i initialVoice).active = true) ∨
       ((∀ i, i < st.voices.length → (st.voices.getD i initialVoice).active = true) ∧
        (∀ i, i < st.voices.length →
          (st.voices.getD i initialVoice).position ≤
            (st.voices.getD j initialVoice).position) ∧
        (∀ i, i < j →
          (st.voices.getD i initialVoice).position <
            (st.voices.getD j initialVoice).position))) := by
  cases hidle : findIdleIdx st.voices with
  | some i =>
    obtain ⟨hlt, hinact, hbef⟩ := findIdleIdx_some _ _ hidle
    exact ⟨i, hlt, by simp [triggerVoice, hload, hidle], Or.inl ⟨hinact, hbef⟩⟩
  | none =>
    have hallact := findIdleIdx_none _ hidle
    cases hsteal : stealFrom (-1) st.voices with
    | none =>
      exfalso
      have hlen : 0 < st.voices.length := by
        cases hvs : st.voices with
        | nil => exact absurd hvs hpool
        | cons a b => simp [hvs]
      have h0 := (stealFrom_spec st.voices (-1)).1 hsteal 0 hlen
      have : (0 : ℤ) ≤ ((st.voices.getD 0 initialVoice).position : ℤ) := by positivity
      linarith
    | some j =>
      obtain ⟨hlt, -, hall, hbef⟩ := (stealFrom_spec st.voices (-1)).2 j hsteal
      exact ⟨j, hlt, by simp [triggerVoice, hload, hidle, hsteal],
        Or.inr ⟨hallact, hall, hbef⟩⟩

/-- C1 witness: the selection theorem applied to `demoMixer` and "kick"
(stealing case: all three voices active, tie on the largest cursor). -/
theorem trigger_voice_selection_witness :
    demoMixer.voices ≠ [] ∧
    findSample demoMixer.samples "kick" = some ⟨[1], [1], 1⟩ ∧
    ∃ j, j < demoMixer.voices.length ∧
      triggerVoice demoMixer "kick" =
        { demoMixer with voices := demoMixer.voices.set j (startVoice "kick") } ∧
      (((demoMixer.voices.getD j initialVoice).active = false ∧
          ∀ i, i < j → (demoMixer.voices.getD i initialVoice).active = true) ∨
       ((∀ i, i < demoMixer.voices.length →
          (demoMixer.voices.getD i initialVoice).active = true) ∧
        (∀ i, i < demoMixer.voices.length →
          (demoMixer.voices.getD i initialVoice).position ≤
            (demoMixer.voices.getD j initialVoice).position) ∧
        (∀ i, i < j →
          (demoMixer.voices.getD i initialVoice).position <
            (demoMixer.voices.getD j initialVoice).position))) :=
  ⟨by decide, rfl,
   trigger_voice_selection demoMixer "kick" ⟨[1], [1], 1⟩ (by decide) rfl⟩

/-- An identifier absent from the key list is not found. -/
theorem findSample_eq_none_of_not_mem (l : List (String × Sample)) (id : String)
    (h : id ∉ l.map Prod.fst) : findSample l id = none := by
  induction l with
  | nil => rfl
  | cons kv rest ih =>
    obtain ⟨k, s⟩ := kv
    simp only [List.map_cons, List.mem_cons, not_or] at h
    simp only [findSample, if_neg (fun hk : k = id => h.1 hk.symm)]
    exact ih h.2

/-- After `samples.delete(id)` on a map with unique keys (which `Map.set`
guarantees in the source), looking `id` up fails. -/
theorem findSample_removeSample (l : List (String × Sample)) (id : String)
    (hnodup : (l.map Prod.fst).Nodup) :
    findSample (removeSample l id) id = none := by
  induction l with
  | nil => rfl
  | cons kv rest ih =>
    obtain ⟨k, s⟩ := kv
    simp only [List.map_cons, List.nodup_cons] at hnodup
    by_cases hk : k = id
    · simp only [removeSample, if_pos hk]
      exact findSample_eq_none_of_not_mem rest id (hk ▸ hnodup.1)
    · simp only [removeSample, if_neg hk, findSample]
      exact ih hnodup.2

/-- C6 (amended): after `unload(id)` the sample-store entry for `id` is gone,
and on its next processed block every active voice bound to `id` is cut off:
the missing-sample branch of the voice loop sets `active := false` and skips
the voice, leaving `state` and `envLevel` untouched and contributing nothing
to the block — it does NOT enter the release state or ramp down. -/
theorem unload_deactivates_voice (st : MixerState) (id : String) (v : Voice)
    (attInc relInc : ℚ) (blockSize : ℕ)
    (hnodup : (st.samples.map Prod.fst).Nodup)
    (hactive : v.active = true) (hbound : v.soundId = some id) :
    findSample (unloadSample st id).samples id = none ∧
    processVoice (unloadSample st id).samples attInc relInc blockSize v =
      ({ v with active := false }, List.replicate blockSize ((0 : ℚ), (0 : ℚ)), 0) := by
  have hf : findSample (removeSample st.samples id) id = none :=
    findSample_removeSample st.samples id hnodup
  refine ⟨hf, ?_⟩
  simp [processVoice, hactive, lookupSample, hbound, unloadSample, hf]

/-- C6 witness: the unload theorem applied to a store holding only "s" and
to `demoBoundVoice`, over one 2-frame block. -/
theorem unload_deactivates_voice_witness :
    findSample (unloadSample (loadSample initialMixer "s" [0] [0] 1) "s").samples "s" = none ∧
    processVoice (unloadSample (loadSample initialMixer "s" [0] [0] 1) "s").samples
        (1/96) (1/144) 2 demoBoundVoice =
      ({ demoBoundVoice with active := false },
       List.replicate 2 ((0 : ℚ), (0 : ℚ)), 0) :=
  unload_deactivates_voice (loadSample initialMixer "s" [0] [0] 1) "s"
    demoBoundVoice (1/96) (1/144) 2 (by decide) rfl rfl

/-- C6 counterexample: the claim says the bound voice "enters the release
lifecycle state (envelope ramping down from its current level) on its next
processed block, rather than being cut off".  At this concrete input the
voice's state after the block is still `sustain` (not `release`), its
envelope still 1, and it has been deactivated outright. -/
theorem unload_no_release_counterexample :
    (processVoice (unloadSample (loadSample initialMixer "s" [0] [0] 1) "s").samples
        (1/96) (1/144) 2 demoBoundVoice).1.state = VState.sustain ∧
    (processVoice (unloadSample (loadSample initialMixer "s" [0] [0] 1) "s").samples
        (1/96) (1/144) 2 demoBoundVoice).1.envLevel = 1 ∧
    (processVoice (unloadSample (loadSample initialMixer "s" [0] [0] 1) "s").samples
        (1/96) (1/144) 2 demoBoundVoice).1.active = false ∧
    VState.sustain ≠ VState.release := by decide

/-- The second and third components of `process` for a host with at least one
output channel, in terms of the computable premix. -/
theorem process_out_eq (clip : ℝ → ℝ) (st : MixerState) (sampleRate : ℚ)
    (channels blockSize : ℕ) (h : channels ≠ 0) :
    (process clip st sampleRate channels blockSize).2.1 =
      writeOutput clip channels (processPre st sampleRate blockSize).2.1 := by
  simp [process, processPre, h]

/-- C7: mono-host stereo contract.  With one host output channel the source
sets `outputRight = output[1] || output[0]`, aliasing the two buffers, so
the single channel receives BOTH the left and the right contribution of the
voice and the soft clip runs twice over the same array.  At sample rate
48000 the first attack frame has envelope 1/96, so the claim's value for
the single channel is `tanh(left[0] * env) = tanh(1/96) ≠ 0`; the code
instead writes `tanh(tanh((left[0] + right[0]) * env)) = tanh(tanh(0)) = 0`. -/
theorem mono_output_double_clip :
    (process Real.tanh demoStereoState 48000 1 1).2.1 = [[(0 : ℝ)]] ∧
    Real.tanh ((1 : ℝ)/96) ≠ 0 := by
  constructor
  · rw [process_out_eq Real.tanh demoStereoState 48000 1 1 (by norm_num)]
    have hpre : (processPre demoStereoState 48000 1).2.1 =
        [((1 : ℚ)/96, -((1 : ℚ)/96))] := by
      norm_num [demoStereoState, processPre, processAllVoices, processVoice,
        mixFrames, envStep, configureEnvelope, lookupSample, findSample,
        loadSample, setSample, initialMixer, triggerVoice, findIdleIdx,
        stealFrom, startVoice, addBuffers, MAX_POLYPHONY, ATTACK_MS,
        RELEASE_MS, List.replicate, initialVoice]
    rw [hpre]
    simp [writeOutput]
  · rw [Real.tanh_eq_sinh_div_cosh]
    exact div_ne_zero (Real.sinh_ne_zero.2 (by norm_num)) (Real.cosh_pos _).ne'

/-- C10: the load-sample handler installs `{left, right, length}` without
checking that the buffers have `length` elements, and the mixing loop guards
`pos` only against the stored `length` field, so `left[pos]`/`right[pos]`
are read out of bounds (the Option-returning `get?` yields `none`) on a
triggered voice whose sample lies about its length: over one frame the
embedded `process` records exactly one out-of-bounds read. -/
theorem oob_read_reachable :
    findSample lengthLieState.samples "s" =
      some ⟨([] : List ℚ), ([] : List ℚ), 1⟩ ∧
    (processPre lengthLieState 48000 1).2.2 = 1 := by
  constructor
  · rfl
  · norm_num [lengthLieState, processPre, processAllVoices, processVoice,
      mixFrames, envStep, configureEnvelope, lookupSample, findSample,
      loadSample, setSample, initialMixer, triggerVoice, findIdleIdx,
      stealFrom, startVoice, addBuffers, MAX_POLYPHONY, ATTACK_MS,
      RELEASE_MS, List.replicate, initialVoice]

end NanoLooper
